import Mathlib

/-!
Shallow embedding of the `@appgeist/restful-next-api` dispatch helper.

The embedded sources are:
  * `src/ApiError.js`            — the typed application error;
  * `src/defaultErrorHandler.js` — the default error-to-response translator;
  * `src/methods.js`             — the `methods` dispatcher entry point;
  * `src/rest.js`                — the `rest` dispatcher entry point.

JavaScript values flowing through the dispatcher (query/body objects, handler
results) are modelled by the inductive `Value`.  Asynchronous functions are
modelled by their observable outcome: a handler either returns a value or
throws, and `await` of a rejected promise is a thrown error.  The external
`yup` validation library is modelled, as the spec directs, as an opaque
capability "validate data, with `abortEarly:false` collecting every field
violation, returning transformed data or throwing a structured
`ValidationError`"; an object schema is a list of per-field checks, each
producing a transformed value or a list of violation messages.
-/

/-- A JavaScript value as far as the dispatcher observes it. -/
inductive Value where
  | vUndefined : Value
  | vNull : Value
  | vBool : Bool → Value
  | vNum : Int → Value
  | vStr : String → Value
  | vObj : List (String × Value) → Value
deriving Repr

/-- `result === undefined || result === null` — the emptiness test used by
both dispatchers on the handler result. -/
def Value.isNil : Value → Bool
  | .vUndefined => true
  | .vNull => true
  | _ => false

/-- Field read `obj[name]`: a missing field, or a read from a non-object,
yields `undefined`. -/
def Value.getField (v : Value) (name : String) : Value :=
  match v with
  | .vObj fs => (fs.lookup name).getD .vUndefined
  | _ => .vUndefined

/-- Helper for `Value.setField`: replace the value of `name` in a field list,
appending the field when absent. -/
def setFieldList (fs : List (String × Value)) (name : String) (v : Value) :
    List (String × Value) :=
  match fs with
  | [] => [(name, v)]
  | (k, w) :: rest =>
      if k = name then (k, v) :: rest else (k, w) :: setFieldList rest name v

/-- Field write `obj[name] = v` (on a non-object this models yup building a
fresh object around the cast result). -/
def Value.setField (v : Value) (name : String) (w : Value) : Value :=
  match v with
  | .vObj fs => .vObj (setFieldList fs name w)
  | _ => .vObj [(name, w)]

/-! ### HTTP status constants and reason phrases (`http-status-codes`) -/

def OK : Nat := 200
def CREATED : Nat := 201
def NO_CONTENT : Nat := 204
def BAD_REQUEST : Nat := 400
def FORBIDDEN : Nat := 403
def NOT_FOUND : Nat := 404
def METHOD_NOT_ALLOWED : Nat := 405
def INTERNAL_SERVER_ERROR : Nat := 500

/-- The standard reason phrases used by this development; `getStatusText`
of the `http-status-codes` package restricted to the codes that appear. -/
def reasonPhrases : List (Nat × String) :=
  [(200, "OK"), (201, "Created"), (204, "No Content"),
   (400, "Bad Request"), (403, "Forbidden"), (404, "Not Found"),
   (405, "Method Not Allowed"), (500, "Internal Server Error")]

/-- `getStatusText(code)`: `some` phrase for a known code, `none` when the
library would throw its "Status code does not exist" error. -/
def getStatusText? (code : Nat) : Option String :=
  reasonPhrases.lookup code

/-- `getStatusText` at a code known to be in the table (every call site in
the dispatcher sources uses a fixed known code, so the library cannot throw
there; the `getD` default is unreachable at those sites). -/
def getStatusText (code : Nat) : String :=
  (getStatusText? code).getD ""

/-! ### `src/ApiError.js` -/

/-- The observable state of a constructed `ApiError`: its `httpStatusCode`
field (`none` models the JavaScript `undefined`) and its `message`. -/
structure ApiError where
  httpStatusCode : Option Nat
  message : String
deriving Repr, DecidableEq

/-- The argument shapes the `ApiError` constructor distinguishes via
`typeof`: no argument, a bare number, or a record with optional `status`
and `message` fields. -/
inductive ApiErrorArg where
  | noArg : ApiErrorArg
  | num : Nat → ApiErrorArg
  | record : Option Nat → Option String → ApiErrorArg
deriving Repr, DecidableEq

/-- `getStatusText` applied to a possibly-`undefined` status, as in the
constructor's record branch; throwing is modelled by `Except.error`. -/
def getStatusTextE : Option Nat → Except String String
  | none => .error "RangeError: Status code does not exist: undefined"
  | some code =>
      match getStatusText? code with
      | some t => .ok t
      | none => .error "RangeError: Status code does not exist"

/-- The `ApiError` constructor (`src/ApiError.js`).  Note the record branch
replaces a *falsy* message — and the empty string is falsy in JavaScript —
by the standard phrase: `if (!message) message = getStatusText(status)`. -/
def ApiError.make : ApiErrorArg → Except String ApiError
  | .noArg =>
      (getStatusTextE (some INTERNAL_SERVER_ERROR)).map
        (fun t => ⟨some INTERNAL_SERVER_ERROR, t⟩)
  | .num status =>
      (getStatusTextE (some status)).map (fun t => ⟨some status, t⟩)
  | .record status message =>
      match message with
      | none => (getStatusTextE status).map (fun t => ⟨status, t⟩)
      | some m =>
          if m = "" then (getStatusTextE status).map (fun t => ⟨status, t⟩)
          else .ok ⟨status, m⟩

/-- `new ApiError(METHOD_NOT_ALLOWED)`, the error thrown by both dispatchers
on verb-lookup failure. -/
def methodNotAllowedError : ApiError :=
  ⟨some METHOD_NOT_ALLOWED, "Method Not Allowed"⟩

/-! ### Errors observed at the dispatcher's catch -/

/-- The classification of a caught error, mirroring the two `instanceof`
tests of the catch blocks: a yup `ValidationError` (summary message plus the
ordered list of per-field violation strings), an `ApiError`, or any other
error (carrying only its `stack` text, which is all the translators read). -/
inductive JsError where
  | validationErr : String → List String → JsError
  | apiErr : ApiError → JsError
  | other : String → JsError
deriving Repr, DecidableEq

/-! ### The `yup` validation model

An object schema is a list of per-field checks.  A check receives the raw
field value and yields a transformed value or the field's (non-empty) list of
violation messages.  `abortEarly:false` semantics: every field is checked and
all violations are concatenated in field order. -/

/-- One field's validation/transformation step. -/
def FieldCheck : Type := Value → Except (List String) Value

/-- A yup object schema over named fields. -/
structure ObjectSchema where
  fields : List (String × FieldCheck)

/-- Run one field of an object schema against an accumulated
(transformed-object, violations) pair. -/
def runField (v : Value × List String) (f : String × FieldCheck) :
    Value × List String :=
  match f.2 (v.1.getField f.1) with
  | .ok w => (v.1.setField f.1 w, v.2)
  | .error es => (v.1, v.2 ++ es)

/-- Validate a value against an object schema with `abortEarly:false`:
the transformed value (untouched fields — unknown keys — are kept, as yup
does by default) together with every violation, in field order. -/
def ObjectSchema.run (s : ObjectSchema) (v : Value) : Value × List String :=
  s.fields.foldl runField (v, [])

/-- A `querySchema`/`bodySchema` entry of a handler configuration: absent
(`undefined`), a real yup schema (`isSchema` true), or a plain JavaScript
object of field checks (`isSchema` false; `object(plain)` wraps it into the
carried schema). -/
inductive SchemaArg where
  | absent : SchemaArg
  | yupSchema : ObjectSchema → SchemaArg
  | plainObj : ObjectSchema → SchemaArg

/-- yup's `isSchema`. -/
def SchemaArg.isSchema : SchemaArg → Bool
  | .yupSchema _ => true
  | _ => false

/-- JavaScript truthiness of a schema entry (`querySchema || bodySchema`):
only `undefined` is falsy here. -/
def SchemaArg.truthy : SchemaArg → Bool
  | .absent => false
  | _ => true

/-- The field schema used for one key of the combined
`object({ query: …, body: … })` in `src/methods.js`:
`x ? (isSchema(x) ? x : object(x)) : undefined`.  An `undefined` field of a
yup object schema leaves the corresponding value untouched (unknown keys
pass through). -/
def SchemaArg.runMethods : SchemaArg → Value → Value × List String
  | .absent, v => (v, [])
  | .yupSchema s, v => s.run v
  | .plainObj s, v => s.run v

/-- The field schema used for one key of the combined object schema in
`src/rest.js`, which passes `querySchema`/`bodySchema` through unchanged.
A non-schema plain object reaching this point (possible only in the mixed
case where the *other* entry is a real schema) is outside every claim's
scope and outside yup's documented domain; it is modelled as pass-through. -/
def SchemaArg.runRest : SchemaArg → Value → Value × List String
  | .absent, v => (v, [])
  | .yupSchema s, v => s.run v
  | .plainObj _, v => (v, [])

/-- The aggregate `ValidationError` message yup produces for a multi-error
failure, as shown in the repository README
(`"There were 2 validation errors"`). -/
def aggregateMessage (errors : List String) : String :=
  "There were " ++ toString errors.length ++ " validation errors"

/-- `object({ query, body }).validate({ query, body }, { abortEarly: false })`:
run both sub-schemas, concatenate every violation (query first), and either
return the transformed pair or throw one `ValidationError` carrying all of
them. -/
def validateQB (runQ runB : Value → Value × List String) (q b : Value) :
    Except JsError (Value × Value) :=
  let rq := runQ q
  let rb := runB b
  match rq.2 ++ rb.2 with
  | [] => .ok (rq.1, rb.1)
  | es => .error (.validationErr (aggregateMessage es) es)

/-! ### Requests, responses and the dispatch outcome -/

/-- The part of the framework request the dispatcher reads: the verb and the
pre-deserialized `query` and `body`. -/
structure Req where
  method : String
  query : Value
  body : Value
deriving Repr

/-- The body argument of one `res…send`/`res.json` call, by the shape built
at each send site. -/
inductive SentBody where
  | nullBody : SentBody
  | raw : Value → SentBody
  | msgObj : String → SentBody
  | msgErrObj : String → List String → SentBody
deriving Repr

/-- One response write: the status set on `res` and the body sent.
`res.json(x)`/`res.send(x)` without a preceding `res.status` uses the
framework default `200`. -/
structure ResponseWrite where
  status : Option Nat
  body : SentBody
deriving Repr

/-- A request handler: receives the (validated) query and body and the
request, and returns a result value or throws.  `await` of its result folds
asynchronous rejection into the thrown case. -/
def Handler : Type := Value → Value → Req → Except JsError Value

/-- A custom error handler `({ err, res }) => …`: modelled by the response
writes it performs for a given error. -/
def ErrorHandler : Type := JsError → List ResponseWrite

/-- The outcome of a pre-hook call `beforeRequestHandler(req)`: a
synchronous throw, or a normal return with the (possibly mutated) request —
and, when the hook is asynchronous, the rejection its un-awaited promise
later surfaces as an unhandled rejection. -/
inductive PreHookRes where
  | throws : JsError → PreHookRes
  | returns : Req → Option JsError → PreHookRes

/-- A pre-hook function. -/
def PreHook : Type := Req → PreHookRes

/-- Everything observable about one dispatcher invocation. -/
structure DispatchResult where
  /-- The response writes performed, in order. -/
  writes : List ResponseWrite
  /-- Diagnostic-channel output (`console.log(err.stack)`). -/
  log : List String
  /-- The `{query, body}` the request handler was invoked with, when it was
  invoked at all. -/
  handlerArgs : Option (Value × Value)
  /-- Whether the schema-validation step executed. -/
  validated : Bool
  /-- Whether a pre-hook was invoked. -/
  preHookCalled : Bool
  /-- Rejections of un-awaited promises returned by the pre-hook: they
  escape as unhandled rejections and are never routed to error handling. -/
  unhandledRejections : List JsError
  /-- The error delivered to the selected error path (custom handler,
  default translator, or the inline catch of `rest`), if any. -/
  errorHandled : Option JsError
  /-- An error escaping the dispatcher uncaught (the async dispatcher
  function's promise rejects), if any. -/
  escaped : Option JsError
deriving Repr

/-! ### `src/defaultErrorHandler.js` -/

/-- The default error-to-response translator: the response writes it
performs together with its diagnostic output.  Classification order is that
of the source: `ValidationError` first, then `ApiError`, then the fallback
(which alone logs `err.stack` and sends only the fixed 500 phrase). -/
def defaultErrorHandlerFn : JsError → List ResponseWrite × List String
  | .validationErr message errors =>
      ([⟨some BAD_REQUEST, .msgErrObj message errors⟩], [])
  | .apiErr e =>
      ([⟨e.httpStatusCode, .msgObj e.message⟩], [])
  | .other stack =>
      ([⟨some INTERNAL_SERVER_ERROR,
          .msgObj (getStatusText INTERNAL_SERVER_ERROR)⟩], [stack])

/-- The inline catch block of `src/rest.js` (same classification chain,
written out in the dispatcher body; the fallback logs before sending). -/
def restCatch : JsError → List ResponseWrite × List String
  | .validationErr message errors =>
      ([⟨some BAD_REQUEST, .msgErrObj message errors⟩], [])
  | .apiErr e =>
      ([⟨e.httpStatusCode, .msgObj e.message⟩], [])
  | .other stack =>
      ([⟨some INTERNAL_SERVER_ERROR,
          .msgObj (getStatusText INTERNAL_SERVER_ERROR)⟩], [stack])

/-! ### `src/methods.js` -/

/-- One verb's entry in the `methods` options: either a bare handler
function, or a configuration record
`{ beforeRequest?, onRequest?, querySchema?, bodySchema?, onError? }`. -/
inductive MethodConfig where
  | fn : Handler → MethodConfig
  | record : Option PreHook → Option Handler → SchemaArg → SchemaArg →
      Option ErrorHandler → MethodConfig

/-- `method.querySchema` (a bare function has no such property). -/
def MethodConfig.querySchema : MethodConfig → SchemaArg
  | .fn _ => .absent
  | .record _ _ qs _ _ => qs

/-- `method.bodySchema`. -/
def MethodConfig.bodySchema : MethodConfig → SchemaArg
  | .fn _ => .absent
  | .record _ _ _ bs _ => bs

/-- `method.onError` (a bare function has no such property). -/
def MethodConfig.onError : MethodConfig → Option ErrorHandler
  | .fn _ => none
  | .record _ _ _ _ oe => oe

/-- The options record passed to the `methods` entry point: the per-verb
entries (keyed by the lower-case names used at the call site) and the
route-wide `beforeRequest` and `onError`. -/
structure MethodsOptions where
  verbs : List (String × MethodConfig)
  beforeRequest : Option PreHook
  onError : Option ErrorHandler

/-- JavaScript `a || b` on two optional function values. -/
def jsOr {α : Type} : Option α → Option α → Option α
  | some a, _ => some a
  | none, b => b

/-- `req.method.toLowerCase()` for the ASCII verb names, written out
character by character so that it computes by kernel reduction. -/
def lowerVerb (s : String) : String := ⟨s.data.map Char.toLower⟩

/-- The stack text of the `TypeError` raised by evaluating `method.onError`
when `method` is `undefined` (the catch block of `src/methods.js` with no
route-wide `onError` and no entry for the verb). -/
def onErrorOfUndefinedStack : String :=
  "TypeError: Cannot read property onError of undefined"

/-- The stack text of the `TypeError` raised by `src/rest.js` calling
`handleRequest(…)` when the matched configuration has no `handleRequest`
function. -/
def handleRequestNotAFunctionStack : String :=
  "TypeError: handleRequest is not a function"

/-- The outcome of a dispatcher's `try` block, plus the trace facts
accumulated while it ran. -/
structure TryOut where
  result : Except JsError ResponseWrite
  handlerArgs : Option (Value × Value)
  validated : Bool
  preHookCalled : Bool
  unhandledRejections : List JsError

/-- The `try` block of `src/methods.js`, from verb lookup to the success
write.  Follows the source statement by statement: missing entry or missing
`onRequest` throws `ApiError(METHOD_NOT_ALLOWED)`; the effective pre-hook is
`beforeRequest || options.beforeRequest` for a record and
`options.beforeRequest` for a bare function, invoked but *not awaited*;
validation runs iff `querySchema || bodySchema` is truthy, wrapping plain
objects via `object(…)`; on a nil handler result the status is decided by
`method === 'POST'` — but `method` is the configuration value, never the
string `'POST'`, so that comparison is always false and the branch writes
`NO_CONTENT`. -/
def methodsTryBody (options : MethodsOptions) (method? : Option MethodConfig)
    (req : Req) : TryOut :=
  match method? with
  | none => ⟨.error (.apiErr methodNotAllowedError), none, false, false, []⟩
  | some method =>
    let resolved : Except JsError (Option PreHook × Handler) :=
      match method with
      | .fn h => .ok (options.beforeRequest, h)
      | .record beforeRequest onRequest _ _ _ =>
          match onRequest with
          | none => .error (.apiErr methodNotAllowedError)
          | some h => .ok (jsOr beforeRequest options.beforeRequest, h)
    match resolved with
    | .error e => ⟨.error e, none, false, false, []⟩
    | .ok (beforeRequestHandler, requestHandler) =>
      let preCalled := beforeRequestHandler.isSome
      let afterHook : Except JsError (Req × List JsError) :=
        match beforeRequestHandler with
        | none => .ok (req, [])
        | some ph =>
            match ph req with
            | .throws e => .error e
            | .returns req2 none => .ok (req2, [])
            | .returns req2 (some rej) => .ok (req2, [rej])
      match afterHook with
      | .error e => ⟨.error e, none, false, preCalled, []⟩
      | .ok (req2, rejs) =>
        let qs := method.querySchema
        let bs := method.bodySchema
        let doValidate := qs.truthy || bs.truthy
        let vres : Except JsError (Value × Value) :=
          if doValidate then
            validateQB qs.runMethods bs.runMethods req2.query req2.body
          else .ok (req2.query, req2.body)
        match vres with
        | .error e => ⟨.error e, none, doValidate, preCalled, rejs⟩
        | .ok (query, body) =>
          match requestHandler query body req2 with
          | .error e => ⟨.error e, some (query, body), doValidate, preCalled, rejs⟩
          | .ok result =>
            if result.isNil then
              ⟨.ok ⟨some NO_CONTENT, .nullBody⟩,
                some (query, body), doValidate, preCalled, rejs⟩
            else
              ⟨.ok ⟨some OK, .raw result⟩,
                some (query, body), doValidate, preCalled, rejs⟩

/-- The `methods` dispatcher (`src/methods.js`): run the try block, then on
a thrown error select `options.onError || method.onError ||
defaultErrorHandler` — where, when the verb had no entry, reading
`method.onError` on `undefined` itself throws a `TypeError` that escapes the
dispatcher uncaught. -/
def methodsDispatch (options : MethodsOptions) (req : Req) : DispatchResult :=
  let methodName := lowerVerb req.method
  let method? := options.verbs.lookup methodName
  let t := methodsTryBody options method? req
  match t.result with
  | .ok w =>
      ⟨[w], [], t.handlerArgs, t.validated, t.preHookCalled,
        t.unhandledRejections, none, none⟩
  | .error err =>
      match options.onError with
      | some handleError =>
          ⟨handleError err, [], t.handlerArgs, t.validated, t.preHookCalled,
            t.unhandledRejections, some err, none⟩
      | none =>
          match method? with
          | none =>
              ⟨[], [], t.handlerArgs, t.validated, t.preHookCalled,
                t.unhandledRejections, none,
                some (.other onErrorOfUndefinedStack)⟩
          | some method =>
              match method.onError with
              | some handleError =>
                  ⟨handleError err, [], t.handlerArgs, t.validated,
                    t.preHookCalled, t.unhandledRejections, some err, none⟩
              | none =>
                  let d := defaultErrorHandlerFn err
                  ⟨d.1, d.2, t.handlerArgs, t.validated, t.preHookCalled,
                    t.unhandledRejections, some err, none⟩

/-! ### `src/rest.js` -/

/-- One verb's entry in the `rest` handlers mapping:
`{ querySchema?, bodySchema?, handleRequest? }` (the source never checks
that `handleRequest` is present before calling it). -/
structure RestHandlerSpec where
  querySchema : SchemaArg
  bodySchema : SchemaArg
  handleRequest : Option Handler

/-- The `try` block of `src/rest.js`: verb lookup on the raw `req.method`
(upper-case keys), `ApiError(METHOD_NOT_ALLOWED)` when absent; validation
runs iff `isSchema(querySchema) || isSchema(bodySchema)`; calling an absent
`handleRequest` throws a `TypeError`; on a nil result the status is
`req.method === 'POST' ? CREATED : NO_CONTENT` (here `method` *is* the verb
string, so POST really gets `CREATED`). -/
def restTryBody (handlers : List (String × RestHandlerSpec)) (req : Req) :
    TryOut :=
  match handlers.lookup req.method with
  | none => ⟨.error (.apiErr methodNotAllowedError), none, false, false, []⟩
  | some spec =>
    let doValidate := spec.querySchema.isSchema || spec.bodySchema.isSchema
    let vres : Except JsError (Value × Value) :=
      if doValidate then
        validateQB spec.querySchema.runRest spec.bodySchema.runRest
          req.query req.body
      else .ok (req.query, req.body)
    match vres with
    | .error e => ⟨.error e, none, doValidate, false, []⟩
    | .ok (query, body) =>
      match spec.handleRequest with
      | none =>
          ⟨.error (.other handleRequestNotAFunctionStack), none, doValidate,
            false, []⟩
      | some handleRequest =>
        match handleRequest query body req with
        | .error e => ⟨.error e, some (query, body), doValidate, false, []⟩
        | .ok result =>
          if result.isNil then
            ⟨.ok ⟨some (if req.method = "POST" then CREATED else NO_CONTENT),
                .nullBody⟩, some (query, body), doValidate, false, []⟩
          else
            ⟨.ok ⟨some OK, .raw result⟩, some (query, body), doValidate,
              false, []⟩

/-- The `rest` dispatcher (`src/rest.js`): run the try block; every thrown
error is handled by the inline catch (`restCatch`), which always writes a
response. -/
def restDispatch (handlers : List (String × RestHandlerSpec)) (req : Req) :
    DispatchResult :=
  let t := restTryBody handlers req
  match t.result with
  | .ok w =>
      ⟨[w], [], t.handlerArgs, t.validated, t.preHookCalled,
        t.unhandledRejections, none, none⟩
  | .error err =>
      let c := restCatch err
      ⟨c.1, c.2, t.handlerArgs, t.validated, t.preHookCalled,
        t.unhandledRejections, some err, none⟩

/-! ### Concrete sample values

Handlers, hooks, schemas and requests used to instantiate the theorems on
concrete inputs (witnesses and counterexamples). -/

/-- A handler returning `null` (the empty-result success path). -/
def okNullHandler : Handler := fun _ _ _ => .ok .vNull

/-- A handler echoing the query and body it was invoked with. -/
def echoHandler : Handler := fun q b _ => .ok (.vObj [("q", q), ("b", b)])

/-- A handler throwing `new ApiError(FORBIDDEN)`. -/
def throw403Handler : Handler :=
  fun _ _ _ => .error (.apiErr ⟨some FORBIDDEN, "Forbidden"⟩)

/-- A number-coercing field check in the style of `yup.number()`: the string
`"5"` is cast to the number `5`. -/
def pageCheck : FieldCheck := fun v =>
  match v with
  | .vStr "5" => .ok (.vNum 5)
  | .vNum n => .ok (.vNum n)
  | _ => .error ["query.page must be a number"]

/-- `object({ page: number() … })`. -/
def pageSchema : ObjectSchema := ⟨[("page", pageCheck)]⟩

/-- A `yup.string().min(5).required()`-style field check. -/
def nameCheck : FieldCheck := fun v =>
  match v with
  | .vStr s =>
      if s.length < 5 then .error ["body.name must be at least 5 characters"]
      else .ok (.vStr s)
  | _ => .error ["body.name is required"]

/-- A `yup.number().positive().required()`-style field check. -/
def priceCheck : FieldCheck := fun v =>
  match v with
  | .vNum n =>
      if n ≤ 0 then .error ["body.price must be a positive number"]
      else .ok (.vNum n)
  | _ => .error ["body.price is required"]

/-- `object({ name: …, price: … })`. -/
def productSchema : ObjectSchema := ⟨[("name", nameCheck), ("price", priceCheck)]⟩

/-- A GET request whose `page` query parameter is the string `"5"`. -/
def getReq : Req := ⟨"GET", .vObj [("page", .vStr "5")], .vObj []⟩

/-- A POST request whose body violates `productSchema` twice. -/
def postBadReq : Req :=
  ⟨"POST", .vObj [], .vObj [("name", .vStr "ab"), ("price", .vNum (-1))]⟩

/-- A custom error handler that demonstrably observes the error it is given:
it echoes the carried status and message of an `ApiError`. -/
def observingHandler : ErrorHandler := fun e =>
  match e with
  | .apiErr a => [⟨a.httpStatusCode, .msgObj ("custom: " ++ a.message)⟩]
  | _ => [⟨some INTERNAL_SERVER_ERROR, .msgObj "custom: unexpected"⟩]

/-- A route-wide custom error handler with a recognizable write. -/
def routeWideHandler : ErrorHandler := fun _ => [⟨some 581, .msgObj "route-wide"⟩]

/-- A per-verb custom error handler with a recognizable write. -/
def perVerbHandler : ErrorHandler := fun _ => [⟨some 582, .msgObj "per-verb"⟩]

/-- A pre-hook that mutates the request (attaches `userId` to the query). -/
def taggingPreHook : PreHook := fun r =>
  .returns ⟨r.method, r.query.setField "userId" (.vNum 42), r.body⟩ none

/-- A pre-hook that throws synchronously. -/
def throwingPreHook : PreHook :=
  fun _ => .throws (.apiErr ⟨some FORBIDDEN, "Forbidden"⟩)

/-- An asynchronous pre-hook whose returned promise rejects. -/
def asyncRejectingPreHook : PreHook :=
  fun r => .returns r (some (.other "Error: async boom"))

/-- Every field violation the effective validation of a `rest` request
collects, across query and body, in order. -/
def restViolations (spec : RestHandlerSpec) (req : Req) : List String :=
  (spec.querySchema.runRest req.query).2 ++ (spec.bodySchema.runRest req.body).2

/-- Every field violation the effective validation of a `methods` request
collects, across query and body, in order. -/
def methodsViolations (qs bs : SchemaArg) (req : Req) : List String :=
  (qs.runMethods req.query).2 ++ (bs.runMethods req.body).2

/-! ## Theorems -/

theorem methodNotAllowedError_make :
    ApiError.make (.num METHOD_NOT_ALLOWED) = .ok methodNotAllowedError := rfl

/-- Claim C1: the claim says every error raised during dispatch — error
handling included — is caught and exactly one response is written.  The
`methods` dispatcher violates this: when the verb has no entry and no
route-wide `onError` is configured, the catch block's handler selection
`options.onError || method.onError || defaultErrorHandler` reads `onError`
off `method === undefined`, so the catch block itself throws a `TypeError`
that escapes the dispatcher uncaught and no response is written at all. -/
theorem C1_methods_catch_crash_escapes :
    (methodsDispatch ⟨[("get", .fn okNullHandler)], none, none⟩
        ⟨"POST", .vObj [], .vObj []⟩).escaped
      = some (.other onErrorOfUndefinedStack)
    ∧ (methodsDispatch ⟨[("get", .fn okNullHandler)], none, none⟩
        ⟨"POST", .vObj [], .vObj []⟩).writes = [] :=
  ⟨rfl, rfl⟩

/-- Claim C5: the claim says an absent handler result yields 201 on POST
(and 204 otherwise) in both dispatchers.  `rest` does respond 201, but in
`methods` the status is chosen by `method === 'POST'` where `method` is the
*configuration value* looked up for the verb, never the string `'POST'`, so
a POST whose handler returns `undefined` is answered with 204, not 201. -/
theorem C5_methods_post_empty_result_is_204 :
    (restDispatch [("POST", ⟨.absent, .absent, some okNullHandler⟩)]
        ⟨"POST", .vObj [], .vObj []⟩).writes
      = [⟨some CREATED, .nullBody⟩]
    ∧ (methodsDispatch ⟨[("post", .fn okNullHandler)], none, none⟩
        ⟨"POST", .vObj [], .vObj []⟩).writes
      = [⟨some NO_CONTENT, .nullBody⟩]
    ∧ NO_CONTENT ≠ CREATED :=
  ⟨rfl, rfl, by decide⟩

/-- Claim C6: the default error translator classifies in the fixed order
ValidationError → 400 with `{message, errors}`, then ApiError → its carried
status with `{message}`, then anything else → 500 whose body is the constant
standard phrase for 500 — for every unclassified error the client body is
the same, and the error's stack goes only to the diagnostic log.  The inline
catch of `rest` implements the same translation. -/
theorem C6_default_translator_classification :
    (∀ message errors,
      defaultErrorHandlerFn (.validationErr message errors)
        = ([⟨some BAD_REQUEST, .msgErrObj message errors⟩], []))
    ∧ (∀ e : ApiError,
      defaultErrorHandlerFn (.apiErr e)
        = ([⟨e.httpStatusCode, .msgObj e.message⟩], []))
    ∧ (∀ stack,
      defaultErrorHandlerFn (.other stack)
        = ([⟨some INTERNAL_SERVER_ERROR,
              .msgObj (getStatusText INTERNAL_SERVER_ERROR)⟩], [stack]))
    ∧ getStatusText INTERNAL_SERVER_ERROR = "Internal Server Error"
    ∧ (∀ e, restCatch e = defaultErrorHandlerFn e) :=
  ⟨fun _ _ => rfl, fun _ => rfl, fun _ => rfl, rfl,
    fun e => by cases e <;> rfl⟩

/-- Claim C9 (counterexample): the claim says a record `{status, message}`
produces that status and *that* message; but the constructor replaces any
falsy message — `if (!message)` — and the empty string is falsy, so
`new ApiError({status: 404, message: ""})` carries `"Not Found"`, not the
given message. -/
theorem C9_empty_message_is_replaced :
    ApiError.make (.record (some NOT_FOUND) (some ""))
      = .ok ⟨some NOT_FOUND, "Not Found"⟩
    ∧ ("Not Found" : String) ≠ "" :=
  ⟨rfl, by decide⟩

/-- Claim C9 as amended: with no argument the constructor yields status 500
and the 500 phrase; with a bare numeric status it yields that status and its
standard phrase; with a record carrying a *non-empty* message it yields that
status and message; with a record lacking a message the message defaults to
the standard phrase of the given status (an empty-string message is treated
as missing).  Each case exposes a numeric status and a string message. -/
theorem C9_constructor_contract (status : Nat) (phrase m : String)
    (hs : getStatusText? status = some phrase) (hm : m ≠ "") :
    ApiError.make .noArg
      = .ok ⟨some INTERNAL_SERVER_ERROR, "Internal Server Error"⟩
    ∧ ApiError.make (.num status) = .ok ⟨some status, phrase⟩
    ∧ ApiError.make (.record (some status) (some m)) = .ok ⟨some status, m⟩
    ∧ ApiError.make (.record (some status) none) = .ok ⟨some status, phrase⟩ := by
  refine ⟨rfl, ?_, ?_, ?_⟩
  · simp [ApiError.make, getStatusTextE, hs, Except.map]
  · simp [ApiError.make, hm]
  · simp [ApiError.make, getStatusTextE, hs, Except.map]

/-- Claim C9 witness: the amended constructor contract at status 404 with
the custom message `"gone fishing"`. -/
theorem C9_constructor_contract_witness :
    getStatusText? NOT_FOUND = some "Not Found"
    ∧ ("gone fishing" : String) ≠ ""
    ∧ (ApiError.make .noArg
        = .ok ⟨some INTERNAL_SERVER_ERROR, "Internal Server Error"⟩
      ∧ ApiError.make (.num NOT_FOUND) = .ok ⟨some NOT_FOUND, "Not Found"⟩
      ∧ ApiError.make (.record (some NOT_FOUND) (some "gone fishing"))
          = .ok ⟨some NOT_FOUND, "gone fishing"⟩
      ∧ ApiError.make (.record (some NOT_FOUND) none)
          = .ok ⟨some NOT_FOUND, "Not Found"⟩) :=
  ⟨rfl, by decide,
    C9_constructor_contract NOT_FOUND "Not Found" "gone fishing" rfl (by decide)⟩

/-- Claim C2 (counterexample): the claim says a matched configuration record
with no handler function is answered through the error path as a
405-classified ApplicationError.  In the `rest` dispatcher it is not: the
source never checks `handleRequest` before calling it, so the request dies
with a `TypeError` that the catch classifies as an unexpected error — a 500,
not a 405. -/
theorem C2_rest_missing_handler_is_500 :
    (restDispatch [("GET", ⟨.absent, .absent, none⟩)]
        ⟨"GET", .vObj [], .vObj []⟩).writes
      = [⟨some INTERNAL_SERVER_ERROR, .msgObj "Internal Server Error"⟩]
    ∧ (restDispatch [("GET", ⟨.absent, .absent, none⟩)]
        ⟨"GET", .vObj [], .vObj []⟩).errorHandled
      = some (.other handleRequestNotAFunctionStack)
    ∧ JsError.other handleRequestNotAFunctionStack
        ≠ .apiErr methodNotAllowedError
    ∧ INTERNAL_SERVER_ERROR ≠ METHOD_NOT_ALLOWED :=
  ⟨rfl, rfl, by decide, by decide⟩

/-- Claim C2 as amended: a verb with no entry raises
`ApiError(METHOD_NOT_ALLOWED)` routed through the error path in both
dispatchers — in `rest` the inline translator answers 405, and in `methods`
a configured route-wide error handler observes the 405-classified error; in
`methods` a matched configuration record without a handler function is also
a 405 delivered to the error path (custom handler or default translator);
but in `rest` a matched configuration record without a handler function
instead produces a `TypeError` translated to a 500. -/
theorem C2_405_routing
    (handlers : List (String × RestHandlerSpec)) (req : Req)
    (options : MethodsOptions) (req2 : Req) (h : ErrorHandler)
    (options3 : MethodsOptions) (req3 : Req) (ph3 : Option PreHook)
    (qs3 bs3 : SchemaArg) (oe3 : Option ErrorHandler)
    (handlers4 : List (String × RestHandlerSpec)) (req4 : Req)
    (spec4 : RestHandlerSpec)
    (h1 : handlers.lookup req.method = none)
    (h2a : options.verbs.lookup (lowerVerb req2.method) = none)
    (h2b : options.onError = some h)
    (h3 : options3.verbs.lookup (lowerVerb req3.method)
        = some (.record ph3 none qs3 bs3 oe3))
    (h4a : handlers4.lookup req4.method = some spec4)
    (h4b : spec4.querySchema.isSchema = false)
    (h4c : spec4.bodySchema.isSchema = false)
    (h4d : spec4.handleRequest = none) :
    (restDispatch handlers req).writes
        = [⟨some METHOD_NOT_ALLOWED, .msgObj "Method Not Allowed"⟩]
    ∧ (restDispatch handlers req).errorHandled
        = some (.apiErr methodNotAllowedError)
    ∧ (methodsDispatch options req2).writes
        = h (.apiErr methodNotAllowedError)
    ∧ (methodsDispatch options req2).errorHandled
        = some (.apiErr methodNotAllowedError)
    ∧ (methodsDispatch options3 req3).errorHandled
        = some (.apiErr methodNotAllowedError)
    ∧ (options3.onError = none → oe3 = none →
        (methodsDispatch options3 req3).writes
          = [⟨some METHOD_NOT_ALLOWED, .msgObj "Method Not Allowed"⟩])
    ∧ (restDispatch handlers4 req4).writes
        = [⟨some INTERNAL_SERVER_ERROR, .msgObj "Internal Server Error"⟩]
    ∧ (restDispatch handlers4 req4).errorHandled
        = some (.other handleRequestNotAFunctionStack) := by
  refine ⟨?_, ?_, ?_, ?_, ?_, ?_, ?_, ?_⟩
  · simp [restDispatch, restTryBody, h1, restCatch, methodNotAllowedError,
      getStatusText, getStatusText?, reasonPhrases]
  · simp [restDispatch, restTryBody, h1]
  · simp [methodsDispatch, methodsTryBody, h2a, h2b]
  · simp [methodsDispatch, methodsTryBody, h2a, h2b]
  · simp only [methodsDispatch, methodsTryBody, h3]
    cases hoe : options3.onError with
    | some h' => simp
    | none => cases oe3 <;> simp [MethodConfig.onError, defaultErrorHandlerFn]
  · intro hoe hoe3
    subst hoe3
    simp [methodsDispatch, methodsTryBody, h3, hoe, MethodConfig.onError,
      defaultErrorHandlerFn, methodNotAllowedError]
  · simp only [restDispatch, restTryBody, h4a, h4b, h4c, h4d]
    simp [validateQB, restCatch]
    decide
  · simp [restDispatch, restTryBody, h4a, h4b, h4c, h4d, validateQB]

/-- Claim C2 witness: the 405 routing at concrete inputs — a GET request on
a POST-only `rest` route is answered 405 through the error path, and a
configured route-wide `onError` of `methods` observes the 405-classified
`ApiError`. -/
theorem C2_405_routing_witness :
    (methodsDispatch
        ⟨[("get", .fn okNullHandler)], none, some observingHandler⟩
        ⟨"POST", .vObj [], .vObj []⟩).writes
      = observingHandler (.apiErr methodNotAllowedError)
    ∧ observingHandler (.apiErr methodNotAllowedError)
      = [⟨some METHOD_NOT_ALLOWED, .msgObj "custom: Method Not Allowed"⟩]
    ∧ (restDispatch [("POST", ⟨.absent, .absent, some okNullHandler⟩)]
        ⟨"GET", .vObj [], .vObj []⟩).writes
      = [⟨some METHOD_NOT_ALLOWED, .msgObj "Method Not Allowed"⟩] := by
  have h := C2_405_routing
    [("POST", ⟨.absent, .absent, some okNullHandler⟩)]
    ⟨"GET", .vObj [], .vObj []⟩
    ⟨[("get", .fn okNullHandler)], none, some observingHandler⟩
    ⟨"POST", .vObj [], .vObj []⟩ observingHandler
    ⟨[("get", .record none none .absent .absent none)], none, none⟩
    ⟨"GET", .vObj [], .vObj []⟩ none .absent .absent none
    [("GET", ⟨.absent, .absent, none⟩)] ⟨"GET", .vObj [], .vObj []⟩
    ⟨.absent, .absent, none⟩
    rfl rfl rfl rfl rfl rfl rfl rfl
  exact ⟨h.2.2.1, rfl, h.1⟩

/-- Claim C3: validation runs with collect-all-errors semantics — every
field violation across query and body is gathered, in order, into one
`ValidationError` — and a request failing validation with those N violations
is answered 400 with a body whose `errors` list is exactly that N-entry
list, while the request handler is never invoked.  Stated for `rest`
(inline translator) and for `methods` on its default error path. -/
theorem C3_validation_collects_all_violations
    (handlers : List (String × RestHandlerSpec)) (req : Req)
    (spec : RestHandlerSpec)
    (options : MethodsOptions) (req2 : Req) (h2 : Handler)
    (qs2 bs2 : SchemaArg)
    (h1a : handlers.lookup req.method = some spec)
    (h1b : (spec.querySchema.isSchema || spec.bodySchema.isSchema) = true)
    (h1c : restViolations spec req ≠ [])
    (h2a : options.verbs.lookup (lowerVerb req2.method)
        = some (.record none (some h2) qs2 bs2 none))
    (h2b : options.beforeRequest = none)
    (h2c : options.onError = none)
    (h2d : (qs2.truthy || bs2.truthy) = true)
    (h2e : methodsViolations qs2 bs2 req2 ≠ []) :
    ((restDispatch handlers req).writes
        = [⟨some BAD_REQUEST,
            .msgErrObj (aggregateMessage (restViolations spec req))
              (restViolations spec req)⟩]
      ∧ (restDispatch handlers req).handlerArgs = none)
    ∧ ((methodsDispatch options req2).writes
        = [⟨some BAD_REQUEST,
            .msgErrObj (aggregateMessage (methodsViolations qs2 bs2 req2))
              (methodsViolations qs2 bs2 req2)⟩]
      ∧ (methodsDispatch options req2).handlerArgs = none) := by
  constructor
  · have hv : restViolations spec req
        = (spec.querySchema.runRest req.query).2
          ++ (spec.bodySchema.runRest req.body).2 := rfl
    cases he : restViolations spec req with
    | nil => exact absurd he h1c
    | cons a l =>
      rw [hv] at he
      constructor
      · simp [restDispatch, restTryBody, h1a, h1b, validateQB, he, restCatch,
          ← hv, he]
      · simp [restDispatch, restTryBody, h1a, h1b, validateQB, he]
  · have hv : methodsViolations qs2 bs2 req2
        = (qs2.runMethods req2.query).2 ++ (bs2.runMethods req2.body).2 := rfl
    cases he : methodsViolations qs2 bs2 req2 with
    | nil => exact absurd he h2e
    | cons a l =>
      rw [hv] at he
      constructor
      · simp [methodsDispatch, methodsTryBody, h2a, h2b, h2c, h2d, jsOr,
          validateQB, he, defaultErrorHandlerFn, MethodConfig.querySchema,
          MethodConfig.bodySchema, MethodConfig.onError, ← hv, he]
      · simp [methodsDispatch, methodsTryBody, h2a, h2b, h2c, h2d, jsOr,
          validateQB, he, MethodConfig.querySchema, MethodConfig.bodySchema,
          MethodConfig.onError]

/-- Claim C3 witness: a POST body violating `productSchema` twice (name too
short, price not positive) is answered 400 with exactly those two `errors`
entries by both dispatchers, and the handler is never invoked. -/
theorem C3_validation_witness :
    (restViolations ⟨.absent, .yupSchema productSchema, some echoHandler⟩
        postBadReq).length = 2
    ∧ (restDispatch
        [("POST", ⟨.absent, .yupSchema productSchema, some echoHandler⟩)]
        postBadReq).writes
      = [⟨some BAD_REQUEST,
          .msgErrObj "There were 2 validation errors"
            ["body.name must be at least 5 characters",
             "body.price must be a positive number"]⟩]
    ∧ (restDispatch
        [("POST", ⟨.absent, .yupSchema productSchema, some echoHandler⟩)]
        postBadReq).handlerArgs = none
    ∧ (methodsDispatch
        ⟨[("post", .record none (some echoHandler) .absent
            (.plainObj productSchema) none)], none, none⟩ postBadReq).writes
      = [⟨some BAD_REQUEST,
          .msgErrObj "There were 2 validation errors"
            ["body.name must be at least 5 characters",
             "body.price must be a positive number"]⟩]
    ∧ (methodsDispatch
        ⟨[("post", .record none (some echoHandler) .absent
            (.plainObj productSchema) none)], none, none⟩ postBadReq).handlerArgs
      = none := by
  have h := C3_validation_collects_all_violations
    [("POST", ⟨.absent, .yupSchema productSchema, some echoHandler⟩)]
    postBadReq ⟨.absent, .yupSchema productSchema, some echoHandler⟩
    ⟨[("post", .record none (some echoHandler) .absent
        (.plainObj productSchema) none)], none, none⟩
    postBadReq echoHandler .absent (.plainObj productSchema)
    rfl rfl (by decide) rfl rfl rfl rfl (by decide)
  exact ⟨rfl, h.1.1, h.1.2, h.2.1, h.2.2⟩

/-- Claim C4: whenever validation runs (at least one schema present) and
succeeds, the handler is invoked with exactly the transformed query and body
produced by validation — the pair returned by the combined schema's
`validate`, not the raw request values — in both dispatchers. -/
theorem C4_handler_receives_transformed
    (handlers : List (String × RestHandlerSpec)) (req : Req)
    (spec : RestHandlerSpec) (h : Handler) (q b : Value)
    (options : MethodsOptions) (req2 : Req) (h2 : Handler)
    (qs2 bs2 : SchemaArg) (q2 b2 : Value)
    (h1a : handlers.lookup req.method = some spec)
    (h1b : (spec.querySchema.isSchema || spec.bodySchema.isSchema) = true)
    (h1c : validateQB spec.querySchema.runRest spec.bodySchema.runRest
        req.query req.body = .ok (q, b))
    (h1d : spec.handleRequest = some h)
    (h2a : options.verbs.lookup (lowerVerb req2.method)
        = some (.record none (some h2) qs2 bs2 none))
    (h2b : options.beforeRequest = none)
    (h2c : (qs2.truthy || bs2.truthy) = true)
    (h2d : validateQB qs2.runMethods bs2.runMethods req2.query req2.body
        = .ok (q2, b2)) :
    (restDispatch handlers req).handlerArgs = some (q, b)
    ∧ (methodsDispatch options req2).handlerArgs = some (q2, b2) := by
  constructor
  · cases hr : h q b req with
    | error e => simp [restDispatch, restTryBody, h1a, h1b, h1c, h1d, hr]
    | ok r =>
      cases hn : r.isNil <;>
        simp [restDispatch, restTryBody, h1a, h1b, h1c, h1d, hr, hn]
  · cases hr : h2 q2 b2 req2 with
    | error e =>
      cases hoe : options.onError <;>
        simp [methodsDispatch, methodsTryBody, h2a, h2b, h2c, h2d, hoe, jsOr,
          MethodConfig.querySchema, MethodConfig.bodySchema,
          MethodConfig.onError, hr]
    | ok r =>
      cases hn : r.isNil <;>
        simp [methodsDispatch, methodsTryBody, h2a, h2b, h2c, h2d, jsOr,
          MethodConfig.querySchema, MethodConfig.bodySchema, hr, hn]

/-- Claim C4 witness: with a number-coercing query schema, the query
`{page: "5"}` reaches the handler as `{page: 5}` (the number), in both
dispatchers; the raw request value was the string. -/
theorem C4_handler_receives_transformed_witness :
    validateQB (SchemaArg.yupSchema pageSchema).runRest
        SchemaArg.absent.runRest getReq.query getReq.body
      = .ok (.vObj [("page", .vNum 5)], .vObj [])
    ∧ (restDispatch [("GET", ⟨.yupSchema pageSchema, .absent, some echoHandler⟩)]
        getReq).handlerArgs
      = some (.vObj [("page", .vNum 5)], .vObj [])
    ∧ (methodsDispatch
        ⟨[("get", .record none (some echoHandler) (.yupSchema pageSchema)
            .absent none)], none, none⟩ getReq).handlerArgs
      = some (.vObj [("page", .vNum 5)], .vObj [])
    ∧ Value.vNum 5 ≠ Value.vStr "5"
    ∧ getReq.query.getField "page" = .vStr "5" := by
  have h := C4_handler_receives_transformed
    [("GET", ⟨.yupSchema pageSchema, .absent, some echoHandler⟩)] getReq
    ⟨.yupSchema pageSchema, .absent, some echoHandler⟩ echoHandler
    (.vObj [("page", .vNum 5)]) (.vObj [])
    ⟨[("get", .record none (some echoHandler) (.yupSchema pageSchema)
        .absent none)], none, none⟩
    getReq echoHandler (.yupSchema pageSchema) .absent
    (.vObj [("page", .vNum 5)]) (.vObj [])
    rfl rfl rfl rfl rfl rfl rfl rfl
  refine ⟨rfl, h.1, h.2, ?_, rfl⟩
  simp

/-- Claim C7 (counterexample): the claim says the per-verb error handler
takes precedence over the route-wide one.  The source selects
`options.onError || method.onError || defaultErrorHandler`, so with both
configured it is the *route-wide* handler that runs: here the error is
answered with the route-wide handler's write, not the per-verb one's. -/
theorem C7_route_wide_beats_per_verb :
    (methodsDispatch
        ⟨[("get", .record none (some throw403Handler) .absent .absent
            (some perVerbHandler))], none, some routeWideHandler⟩
        getReq).writes
      = [⟨some 581, .msgObj "route-wide"⟩]
    ∧ perVerbHandler (.apiErr ⟨some FORBIDDEN, "Forbidden"⟩)
      = [⟨some 582, .msgObj "per-verb"⟩]
    ∧ ([⟨some 581, .msgObj "route-wide"⟩] : List ResponseWrite)
      ≠ [⟨some 582, .msgObj "per-verb"⟩] := by
  refine ⟨rfl, rfl, ?_⟩
  simp

/-- Claim C7 as amended: the error-handler precedence is route-wide >
verb-specific > default — when a route-wide `onError` is configured it
handles every error of that route; the verb-specific one is consulted only
when no route-wide one exists; the default translator runs only when
neither is configured. -/
theorem C7_error_handler_precedence
    (options : MethodsOptions) (req : Req) (e : JsError)
    (ht : (methodsTryBody options
        (options.verbs.lookup (lowerVerb req.method)) req).result = .error e) :
    (∀ h, options.onError = some h →
      (methodsDispatch options req).writes = h e)
    ∧ (∀ cfg h, options.onError = none →
        options.verbs.lookup (lowerVerb req.method) = some cfg →
        cfg.onError = some h →
        (methodsDispatch options req).writes = h e)
    ∧ (∀ cfg, options.onError = none →
        options.verbs.lookup (lowerVerb req.method) = some cfg →
        cfg.onError = none →
        (methodsDispatch options req).writes = (defaultErrorHandlerFn e).1) := by
  refine ⟨?_, ?_, ?_⟩
  · intro h hoe
    simp [methodsDispatch, ht, hoe]
  · intro cfg h hoe hcfg hver
    rw [hcfg] at ht
    simp [methodsDispatch, ht, hoe, hcfg, hver]
  · intro cfg hoe hcfg hver
    rw [hcfg] at ht
    simp [methodsDispatch, ht, hoe, hcfg, hver]

/-- Claim C7 witness: a handler throwing `ApiError(FORBIDDEN)` under each of
the three configurations — both handlers configured (route-wide wins), only
the per-verb one (it runs), neither (default translator answers 403). -/
theorem C7_error_handler_precedence_witness :
    (methodsDispatch
        ⟨[("get", .record none (some throw403Handler) .absent .absent
            (some perVerbHandler))], none, some routeWideHandler⟩
        getReq).writes
      = routeWideHandler (.apiErr ⟨some FORBIDDEN, "Forbidden"⟩)
    ∧ (methodsDispatch
        ⟨[("get", .record none (some throw403Handler) .absent .absent
            (some perVerbHandler))], none, none⟩ getReq).writes
      = perVerbHandler (.apiErr ⟨some FORBIDDEN, "Forbidden"⟩)
    ∧ (methodsDispatch
        ⟨[("get", .record none (some throw403Handler) .absent .absent none)],
          none, none⟩ getReq).writes
      = (defaultErrorHandlerFn (.apiErr ⟨some FORBIDDEN, "Forbidden"⟩)).1 := by
  have ha := C7_error_handler_precedence
    ⟨[("get", .record none (some throw403Handler) .absent .absent
        (some perVerbHandler))], none, some routeWideHandler⟩
    getReq (.apiErr ⟨some FORBIDDEN, "Forbidden"⟩) rfl
  have hb := C7_error_handler_precedence
    ⟨[("get", .record none (some throw403Handler) .absent .absent
        (some perVerbHandler))], none, none⟩
    getReq (.apiErr ⟨some FORBIDDEN, "Forbidden"⟩) rfl
  have hc := C7_error_handler_precedence
    ⟨[("get", .record none (some throw403Handler) .absent .absent none)],
      none, none⟩
    getReq (.apiErr ⟨some FORBIDDEN, "Forbidden"⟩) rfl
  exact ⟨ha.1 routeWideHandler rfl,
    hb.2.1 (.record none (some throw403Handler) .absent .absent
      (some perVerbHandler)) perVerbHandler rfl rfl rfl,
    hc.2.2 (.record none (some throw403Handler) .absent .absent none)
      rfl rfl rfl⟩

/-- Claim C8 (counterexample): the claim says the dispatcher awaits the
pre-hook, so an asynchronously rejecting pre-hook skips validation and the
handler.  The source calls `beforeRequestHandler(req)` without `await`: with
a pre-hook whose returned promise rejects, the handler is still invoked, the
success response is still written, and the rejection is never routed to
error handling — it is left as an unhandled rejection. -/
theorem C8_async_rejection_not_awaited :
    (methodsDispatch
        ⟨[("get", .record (some asyncRejectingPreHook) (some okNullHandler)
            .absent .absent none)], none, none⟩ getReq).handlerArgs
      = some (getReq.query, getReq.body)
    ∧ (methodsDispatch
        ⟨[("get", .record (some asyncRejectingPreHook) (some okNullHandler)
            .absent .absent none)], none, none⟩ getReq).writes
      = [⟨some NO_CONTENT, .nullBody⟩]
    ∧ (methodsDispatch
        ⟨[("get", .record (some asyncRejectingPreHook) (some okNullHandler)
            .absent .absent none)], none, none⟩ getReq).unhandledRejections
      = [.other "Error: async boom"]
    ∧ (methodsDispatch
        ⟨[("get", .record (some asyncRejectingPreHook) (some okNullHandler)
            .absent .absent none)], none, none⟩ getReq).errorHandled
      = none :=
  ⟨rfl, rfl, rfl, rfl⟩

/-- Claim C8 as amended: the effective pre-hook (the verb-specific one when
present, otherwise the route-wide one) is invoked with the request before
any validation; if it throws synchronously, validation and the handler are
skipped and the error is routed to the configured error handling; but the
dispatcher does not await the pre-hook's result — the request a returning
pre-hook produced feeds the subsequent steps, while any asynchronous
rejection only surfaces as an unhandled rejection without preventing
validation or the handler. -/
theorem C8_prehook_contract
    (options : MethodsOptions) (req : Req) (br : Option PreHook)
    (h : Handler) (qs bs : SchemaArg) (oe : Option ErrorHandler)
    (ph : PreHook) (e : JsError)
    (options2 : MethodsOptions) (req2 : Req) (br2 : Option PreHook)
    (h2 : Handler) (oe2 : Option ErrorHandler) (ph2 : PreHook)
    (req2x : Req) (rej : Option JsError)
    (ha1 : options.verbs.lookup (lowerVerb req.method)
        = some (.record br (some h) qs bs oe))
    (ha2 : jsOr br options.beforeRequest = some ph)
    (ha3 : ph req = .throws e)
    (hb1 : options2.verbs.lookup (lowerVerb req2.method)
        = some (.record br2 (some h2) .absent .absent oe2))
    (hb2 : jsOr br2 options2.beforeRequest = some ph2)
    (hb3 : ph2 req2 = .returns req2x rej) :
    ((methodsDispatch options req).preHookCalled = true
      ∧ (methodsDispatch options req).handlerArgs = none
      ∧ (methodsDispatch options req).validated = false
      ∧ (methodsDispatch options req).errorHandled = some e)
    ∧ ((methodsDispatch options2 req2).handlerArgs
        = some (req2x.query, req2x.body)
      ∧ (methodsDispatch options2 req2).unhandledRejections = rej.toList) := by
  constructor
  · have key : methodsTryBody options
        (options.verbs.lookup (lowerVerb req.method)) req
        = ⟨.error e, none, false, true, []⟩ := by
      rw [ha1]
      simp [methodsTryBody, ha2, ha3]
    cases hoe : options.onError with
    | some h3 => simp [methodsDispatch, key, hoe]
    | none =>
      rw [ha1] at key
      cases oe <;>
        simp [methodsDispatch, key, hoe, ha1, MethodConfig.onError]
  · cases rej with
    | none =>
      cases hr : h2 req2x.query req2x.body req2x with
      | error e2 =>
        cases hoe : options2.onError with
        | some h3 =>
          simp [methodsDispatch, methodsTryBody, hb1, hb2, hb3, hoe, hr,
            MethodConfig.querySchema, MethodConfig.bodySchema,
            MethodConfig.onError, SchemaArg.truthy]
        | none =>
          cases oe2 <;>
            simp [methodsDispatch, methodsTryBody, hb1, hb2, hb3, hoe, hr,
              MethodConfig.querySchema, MethodConfig.bodySchema,
              MethodConfig.onError, SchemaArg.truthy]
      | ok r2 =>
        cases hn : r2.isNil <;>
          simp [methodsDispatch, methodsTryBody, hb1, hb2, hb3, hr, hn,
            MethodConfig.querySchema, MethodConfig.bodySchema,
            SchemaArg.truthy]
    | some rj =>
      cases hr : h2 req2x.query req2x.body req2x with
      | error e2 =>
        cases hoe : options2.onError with
        | some h3 =>
          simp [methodsDispatch, methodsTryBody, hb1, hb2, hb3, hoe, hr,
            MethodConfig.querySchema, MethodConfig.bodySchema,
            MethodConfig.onError, SchemaArg.truthy]
        | none =>
          cases oe2 <;>
            simp [methodsDispatch, methodsTryBody, hb1, hb2, hb3, hoe, hr,
              MethodConfig.querySchema, MethodConfig.bodySchema,
              MethodConfig.onError, SchemaArg.truthy]
      | ok r2 =>
        cases hn : r2.isNil <;>
          simp [methodsDispatch, methodsTryBody, hb1, hb2, hb3, hr, hn,
            MethodConfig.querySchema, MethodConfig.bodySchema,
            SchemaArg.truthy]

/-- Claim C8 witness: a synchronously throwing pre-hook skips validation and
the handler and its error reaches the error path; a pre-hook that mutates
the request (attaching `userId` to the query) runs before validation and the
handler sees the mutated request. -/
theorem C8_prehook_contract_witness :
    ((methodsDispatch
        ⟨[("get", .record (some throwingPreHook) (some echoHandler)
            .absent .absent none)], none, none⟩ getReq).preHookCalled = true
      ∧ (methodsDispatch
        ⟨[("get", .record (some throwingPreHook) (some echoHandler)
            .absent .absent none)], none, none⟩ getReq).handlerArgs = none
      ∧ (methodsDispatch
        ⟨[("get", .record (some throwingPreHook) (some echoHandler)
            .absent .absent none)], none, none⟩ getReq).validated = false
      ∧ (methodsDispatch
        ⟨[("get", .record (some throwingPreHook) (some echoHandler)
            .absent .absent none)], none, none⟩ getReq).errorHandled
        = some (.apiErr ⟨some FORBIDDEN, "Forbidden"⟩))
    ∧ ((methodsDispatch
        ⟨[("get", .record (some taggingPreHook) (some echoHandler)
            .absent .absent none)], none, none⟩ getReq).handlerArgs
        = some (.vObj [("page", .vStr "5"), ("userId", .vNum 42)], .vObj [])
      ∧ (methodsDispatch
        ⟨[("get", .record (some taggingPreHook) (some echoHandler)
            .absent .absent none)], none, none⟩ getReq).unhandledRejections
        = ([] : List JsError)) := by
  have ha := C8_prehook_contract
    ⟨[("get", .record (some throwingPreHook) (some echoHandler)
        .absent .absent none)], none, none⟩ getReq
    (some throwingPreHook) echoHandler .absent .absent none
    throwingPreHook (.apiErr ⟨some FORBIDDEN, "Forbidden"⟩)
    ⟨[("get", .record (some taggingPreHook) (some echoHandler)
        .absent .absent none)], none, none⟩ getReq
    (some taggingPreHook) echoHandler none taggingPreHook
    ⟨"GET", .vObj [("page", .vStr "5"), ("userId", .vNum 42)], .vObj []⟩ none
    rfl rfl rfl rfl rfl rfl
  exact ⟨ha.1, ha.2.1, ha.2.2⟩

/-- Claim C10: in the `rest` dispatcher, when neither schema entry is a real
yup schema (absent or plain objects), the `isSchema(querySchema) ||
isSchema(bodySchema)` guard skips validation entirely — the step never runs
and the handler receives the request's query and body unchanged — whereas
the `methods` dispatcher wraps a plain object via `object(…)` and validates
against it: validation runs, a passing query reaches the handler
transformed, and a failing one produces the validation error. -/
theorem C10_rest_skips_nonschema_validation
    (handlers : List (String × RestHandlerSpec)) (req : Req)
    (spec : RestHandlerSpec) (h : Handler)
    (options : MethodsOptions) (req2 : Req) (s : ObjectSchema) (h2 : Handler)
    (h1a : handlers.lookup req.method = some spec)
    (h1b : spec.querySchema.isSchema = false)
    (h1c : spec.bodySchema.isSchema = false)
    (h1d : spec.handleRequest = some h)
    (h2a : options.verbs.lookup (lowerVerb req2.method)
        = some (.record none (some h2) (.plainObj s) .absent none))
    (h2b : options.beforeRequest = none) :
    ((restDispatch handlers req).validated = false
      ∧ (restDispatch handlers req).handlerArgs = some (req.query, req.body))
    ∧ ((methodsDispatch options req2).validated = true
      ∧ ((s.run req2.query).2 = [] →
          (methodsDispatch options req2).handlerArgs
            = some ((s.run req2.query).1, req2.body))
      ∧ (∀ a l, (s.run req2.query).2 = a :: l →
          (methodsDispatch options req2).handlerArgs = none
          ∧ (methodsDispatch options req2).errorHandled
            = some (.validationErr (aggregateMessage (a :: l)) (a :: l)))) := by
  refine ⟨?_, ?_, ?_, ?_⟩
  · cases hr : h req.query req.body req with
    | error e =>
      simp [restDispatch, restTryBody, h1a, h1b, h1c, h1d, hr]
    | ok r =>
      cases hn : r.isNil <;>
        simp [restDispatch, restTryBody, h1a, h1b, h1c, h1d, hr, hn]
  · cases hv : (s.run req2.query).2 with
    | nil =>
      cases hr : h2 (s.run req2.query).1 req2.body req2 with
      | error e =>
        cases hoe : options.onError <;>
          simp [methodsDispatch, methodsTryBody, h2a, h2b, jsOr, validateQB,
            MethodConfig.querySchema, MethodConfig.bodySchema,
            MethodConfig.onError, SchemaArg.truthy, SchemaArg.runMethods,
            hv, hr, hoe]
      | ok r =>
        cases hn : r.isNil <;>
          simp [methodsDispatch, methodsTryBody, h2a, h2b, jsOr, validateQB,
            MethodConfig.querySchema, MethodConfig.bodySchema,
            MethodConfig.onError, SchemaArg.truthy, SchemaArg.runMethods,
            hv, hr, hn]
    | cons a l =>
      cases hoe : options.onError <;>
        simp [methodsDispatch, methodsTryBody, h2a, h2b, jsOr, validateQB,
          MethodConfig.querySchema, MethodConfig.bodySchema,
          MethodConfig.onError, SchemaArg.truthy, SchemaArg.runMethods, hv,
          hoe]
  · intro hv
    cases hr : h2 (s.run req2.query).1 req2.body req2 with
    | error e =>
      cases hoe : options.onError <;>
        simp [methodsDispatch, methodsTryBody, h2a, h2b, jsOr, validateQB,
          MethodConfig.querySchema, MethodConfig.bodySchema,
          MethodConfig.onError, SchemaArg.truthy, SchemaArg.runMethods, hv,
          hr, hoe]
    | ok r =>
      cases hn : r.isNil <;>
        simp [methodsDispatch, methodsTryBody, h2a, h2b, jsOr, validateQB,
          MethodConfig.querySchema, MethodConfig.bodySchema,
          MethodConfig.onError, SchemaArg.truthy, SchemaArg.runMethods,
          hv, hr, hn]
  · intro a l hv
    constructor <;> cases hoe : options.onError <;>
      simp [methodsDispatch, methodsTryBody, h2a, h2b, jsOr, validateQB,
        MethodConfig.querySchema, MethodConfig.bodySchema,
        MethodConfig.onError, SchemaArg.truthy, SchemaArg.runMethods, hv, hoe]

/-- Claim C10 witness: the same plain-object schema and the same request
(query `{page: "x"}`, which the schema rejects): `rest` skips validation and
hands the handler the raw query, while `methods` wraps and validates it,
never invokes the handler, and produces the one-violation
`ValidationError`. -/
theorem C10_rest_skips_nonschema_validation_witness :
    ((restDispatch [("GET", ⟨.plainObj pageSchema, .absent, some echoHandler⟩)]
        ⟨"GET", .vObj [("page", .vStr "x")], .vObj []⟩).validated = false
      ∧ (restDispatch
          [("GET", ⟨.plainObj pageSchema, .absent, some echoHandler⟩)]
          ⟨"GET", .vObj [("page", .vStr "x")], .vObj []⟩).handlerArgs
        = some (.vObj [("page", .vStr "x")], .vObj []))
    ∧ ((methodsDispatch
          ⟨[("get", .record none (some echoHandler) (.plainObj pageSchema)
              .absent none)], none, none⟩
          ⟨"GET", .vObj [("page", .vStr "x")], .vObj []⟩).validated = true
      ∧ (methodsDispatch
          ⟨[("get", .record none (some echoHandler) (.plainObj pageSchema)
              .absent none)], none, none⟩
          ⟨"GET", .vObj [("page", .vStr "x")], .vObj []⟩).handlerArgs = none
      ∧ (methodsDispatch
          ⟨[("get", .record none (some echoHandler) (.plainObj pageSchema)
              .absent none)], none, none⟩
          ⟨"GET", .vObj [("page", .vStr "x")], .vObj []⟩).errorHandled
        = some (.validationErr (aggregateMessage ["query.page must be a number"])
            ["query.page must be a number"])) := by
  have h := C10_rest_skips_nonschema_validation
    [("GET", ⟨.plainObj pageSchema, .absent, some echoHandler⟩)]
    ⟨"GET", .vObj [("page", .vStr "x")], .vObj []⟩
    ⟨.plainObj pageSchema, .absent, some echoHandler⟩ echoHandler
    ⟨[("get", .record none (some echoHandler) (.plainObj pageSchema)
        .absent none)], none, none⟩
    ⟨"GET", .vObj [("page", .vStr "x")], .vObj []⟩ pageSchema echoHandler
    rfl rfl rfl rfl rfl rfl
  have hfail := h.2.2.2 "query.page must be a number" [] rfl
  exact ⟨⟨h.1.1, h.1.2⟩, h.2.1, hfail.1, hfail.2⟩
